import Mathlib

/-!
Verification of the multi-backend translation adapter (`src/model.py`) and
its comparison driver (`src/main.py`).

The embedding is shallow:
* Python language-name strings become plain `String`s; the Language
  Registry (`Language` dataclass) becomes an enumeration `Language` with a
  `value` map to the registry strings.
* Each backend instance's state (`endpoint_name`, `lang2iso`) becomes a
  `ModelState` record; Python dicts become association lists looked up with
  `List.lookup` (insertion order preserved, keys distinct).
* JSON values are the inductive `Json`; `json.dumps` is left abstract (the
  request body is recorded as the `Json` value that is serialized).
* Network effects become an explicit call log: every `predict` returns the
  list of remote calls it made.  The remote side is a parameter
  `oracle : NetCall → Except Unit Json`; `Except.error ()` models a
  network/invocation failure raised by `_invoke_sagemaker_endpoint` or by
  the managed translate client.
* Python exceptions become `Except PredictError`; an uncaught `KeyError`
  from a dict subscript is `PredictError.keyError`.
* Wall-clock time in the driver is an abstract clock `Nat → Nat` read
  sequentially; only ordering facts are claimed about it.
-/

namespace DataDay

/-- JSON values, as far as this program needs them
(objects, arrays, strings). -/
inductive Json where
  | str : String → Json
  | arr : List Json → Json
  | obj : List (String × Json) → Json
deriving BEq

/-- The `Language` registry of `model.py`: the five human-readable
language-name constants. -/
inductive Language where
  | spanish
  | italian
  | portugees
  | catalan
  | galician
deriving DecidableEq, Repr

/-- The string value of each registry constant
(`Language.spanish = "Spanish"`, etc.). -/
def Language.value : Language → String
  | .spanish => "Spanish"
  | .italian => "Italian"
  | .portugees => "Portugees"
  | .catalan => "Catalan"
  | .galician => "Galician"

/-- A remote call observable from the outside: either a SageMaker
endpoint invocation (`_invoke_sagemaker_endpoint`, carrying the endpoint
name and the JSON body) or a managed AWS Translate `translate_text` call
(carrying its three arguments). -/
inductive NetCall where
  | sagemaker (endpointName : String) (body : Json)
  | awsTranslate (text sourceCode targetCode : String)
deriving BEq

/-- Exceptions a `predict` call can raise: an uncaught `KeyError` from a
dict subscript, a remote invocation failure, or a response whose shape
does not match what the extraction code subscripts. -/
inductive PredictError where
  | keyError (key : String)
  | invocationError
  | responseFormatError
deriving DecidableEq, Repr

/-- The remote world: maps each call to the parsed JSON response, or to
`Except.error ()` when the invocation fails (network error, bad status,
malformed JSON). -/
def Oracle : Type := NetCall → Except Unit Json

/-- The per-instance state of a `TranslateModel`: its endpoint name and
its `lang2iso` map (an insertion-ordered association list). -/
structure ModelState where
  endpoint_name : String
  lang2iso : List (String × String)
deriving DecidableEq, Repr

/-- What one `predict` call produces: the returned string or raised
exception, the remote calls performed, and the instance state after the
call. -/
structure PredictResult where
  result : Except PredictError String
  calls : List NetCall
  state : ModelState

/-- Python `prediction[0]["translation_text"]` on a parsed JSON response:
first element of the array, then its `translation_text` field, which the
code returns as the translated string. -/
def extractTranslationText : Json → Except PredictError String
  | Json.arr (Json.obj fields :: _) =>
    match fields.lookup "translation_text" with
    | some (Json.str s) => Except.ok s
    | _ => Except.error PredictError.responseFormatError
  | _ => Except.error PredictError.responseFormatError

/-- From `HelsinkiItc.__init__`: endpoint `helsinki-nlp-opus-mt-itc-itc` and
the five-entry `lang2iso` map. -/
def HelsinkiItc.mk : ModelState :=
  { endpoint_name := "helsinki-nlp-opus-mt-itc-itc"
    lang2iso := [("Spanish", "spa"), ("Italian", "ita"), ("Portugees", "por"),
                 ("Catalan", "cat"), ("Galician", "glg")] }

/-- Translation of `HelsinkiItc.predict`: looks up `target_lang` in `lang2iso` (an
uncaught `KeyError` when absent), sends the body
`{"inputs": ">>" + target_iso + "<< " + text}` to the SageMaker endpoint
and returns `prediction[0]["translation_text"]`.  `source_lang` is never
consulted. -/
def HelsinkiItc.predict (self : ModelState) (oracle : Oracle)
    (text source_lang target_lang : String) : PredictResult :=
  match self.lang2iso.lookup target_lang with
  | none => { result := Except.error (PredictError.keyError target_lang),
              calls := [], state := self }
  | some target_iso =>
    let body := Json.obj [("inputs", Json.str (">>" ++ target_iso ++ "<< " ++ text))]
    let call := NetCall.sagemaker self.endpoint_name body
    match oracle call with
    | Except.error _ => { result := Except.error PredictError.invocationError,
                          calls := [call], state := self }
    | Except.ok prediction => { result := extractTranslationText prediction,
                                calls := [call], state := self }

/-- From `FacebookMbart.__init__`: endpoint
`facebook-mbart-large-50-many-to-many-mmt` and the three-entry
`lang2iso` map. -/
def FacebookMbart.mk : ModelState :=
  { endpoint_name := "facebook-mbart-large-50-many-to-many-mmt"
    lang2iso := [("Spanish", "es_XX"), ("Italian", "it_IT"), ("Portugees", "pt_XX")] }

/-- Translation of `FacebookMbart.predict`: looks up both languages inside
`try/except KeyError` (returning `"Language not supported"` when either
is absent), sends the body
`{"inputs": [text], "parameters": {"src_lang": ..., "tgt_lang": ...}}`
and returns `prediction[0]["translation_text"]`. -/
def FacebookMbart.predict (self : ModelState) (oracle : Oracle)
    (text source_lang target_lang : String) : PredictResult :=
  match self.lang2iso.lookup source_lang, self.lang2iso.lookup target_lang with
  | some source_iso, some target_iso =>
    let body := Json.obj [("inputs", Json.arr [Json.str text]),
                          ("parameters", Json.obj [("src_lang", Json.str source_iso),
                                                   ("tgt_lang", Json.str target_iso)])]
    let call := NetCall.sagemaker self.endpoint_name body
    (match oracle call with
     | Except.error _ => { result := Except.error PredictError.invocationError,
                           calls := [call], state := self }
     | Except.ok prediction => { result := extractTranslationText prediction,
                                 calls := [call], state := self })
  | _, _ => { result := Except.ok "Language not supported", calls := [], state := self }

/-- From `AwsTranslate.__init__`: endpoint name `aws-translate` and the
four-entry `lang2iso` map. -/
def AwsTranslate.mk : ModelState :=
  { endpoint_name := "aws-translate"
    lang2iso := [("Spanish", "es"), ("Italian", "it"), ("Portugees", "pt-PT"),
                 ("Catalan", "ca")] }

/-- Python `response["TranslatedText"]` on the managed translate client's
response, returned as the translated string. -/
def extractTranslatedText : Json → Except PredictError String
  | Json.obj fields =>
    match fields.lookup "TranslatedText" with
    | some (Json.str s) => Except.ok s
    | _ => Except.error PredictError.responseFormatError
  | _ => Except.error PredictError.responseFormatError

/-- Translation of `AwsTranslate.predict`: looks up both languages inside
`try/except KeyError` (returning `"Language not supported"` when either
is absent), then calls `client.translate_text(Text=text,
SourceLanguageCode=source_iso, TargetLanguageCode=target_iso)` and
returns the response's `TranslatedText` field. -/
def AwsTranslate.predict (self : ModelState) (oracle : Oracle)
    (text source_lang target_lang : String) : PredictResult :=
  match self.lang2iso.lookup source_lang, self.lang2iso.lookup target_lang with
  | some source_iso, some target_iso =>
    let call := NetCall.awsTranslate text source_iso target_iso
    (match oracle call with
     | Except.error _ => { result := Except.error PredictError.invocationError,
                           calls := [call], state := self }
     | Except.ok response => { result := extractTranslatedText response,
                               calls := [call], state := self })
  | _, _ => { result := Except.ok "Language not supported", calls := [], state := self }

/-- From `FacebookLocalMbart.__init__`: endpoint name `mbart50_m2m` and its
three-entry `lang2iso` map. -/
def FacebookLocalMbart.mk : ModelState :=
  { endpoint_name := "mbart50_m2m"
    lang2iso := [("Spanish", "es"), ("Italian", "it"), ("Portugees", "pt")] }

/-- Translation of `FacebookLocalMbart.predict`: looks up both languages inside
`try/except KeyError` (returning `"Language not supported"` when either
is absent), then calls
`self.model.translate(text, source_lang=source_iso, target_lang=target_lang)`
— note the third argument is the raw `target_lang` name, not the
`target_iso` value just computed, which is dropped.  The local EasyNMT
model is the abstract `translator` parameter. -/
def FacebookLocalMbart.predict (self : ModelState)
    (translator : String → String → String → String)
    (text source_lang target_lang : String) : String :=
  match self.lang2iso.lookup source_lang, self.lang2iso.lookup target_lang with
  | some source_iso, some _target_iso => translator text source_iso target_lang
  | _, _ => "Language not supported"

/-- The three configured backend classes, in the order `load_models`
lists them. -/
inductive Backend where
  | helsinkiItc
  | facebookMbart
  | awsTranslate
deriving DecidableEq, Repr

/-- The freshly constructed instance each configured backend starts
from. -/
def Backend.init : Backend → ModelState
  | .helsinkiItc => HelsinkiItc.mk
  | .facebookMbart => FacebookMbart.mk
  | .awsTranslate => AwsTranslate.mk

/-- A configured backend's `endpoint_name` (used as its display name by
the driver). -/
def Backend.endpointName (b : Backend) : String := b.init.endpoint_name

/-- Dispatch `predict` on a configured backend's fresh instance. -/
def Backend.predict : Backend → Oracle → String → String → String → PredictResult
  | .helsinkiItc => HelsinkiItc.predict HelsinkiItc.mk
  | .facebookMbart => FacebookMbart.predict FacebookMbart.mk
  | .awsTranslate => AwsTranslate.predict AwsTranslate.mk

/-- Translation of `load_models()` in `main.py`: the configured backend list, in
order. -/
def load_models : List Backend :=
  [Backend.helsinkiItc, Backend.facebookMbart, Backend.awsTranslate]

/-- One line of the comparison view: backend display name, translated
text, and elapsed clock units. -/
structure DisplayEntry where
  name : String
  translated : String
  elapsed : Nat
deriving DecidableEq, Repr

/-- What a driver run produces: the `(name, translation, elapsed)`
entries displayed in order, the backends whose `predict` was entered in
order, all remote calls made in order, and the exception that aborted
the loop, if any. -/
structure RunOutcome where
  entries : List DisplayEntry
  invoked : List Backend
  calls : List NetCall
  failure : Option PredictError

/-- The `for model in models:` loop of `main`: for each backend in order,
read the clock, call `predict`, read the clock again and display the
entry; an exception from `predict` propagates uncaught, ending the loop.
`k` counts clock reads so far. -/
def runModels (oracle : Oracle) (clock : Nat → Nat)
    (text source_lang target_lang : String) :
    List Backend → Nat → RunOutcome
  | [], _ => { entries := [], invoked := [], calls := [], failure := none }
  | b :: rest, k =>
    let start := clock k
    let p := b.predict oracle text source_lang target_lang
    let stop := clock (k + 1)
    match p.result with
    | Except.error e =>
      { entries := [], invoked := [b], calls := p.calls, failure := some e }
    | Except.ok translated =>
      let out := runModels oracle clock text source_lang target_lang rest (k + 2)
      { entries := { name := b.endpointName, translated := translated,
                     elapsed := stop - start } :: out.entries
        invoked := b :: out.invoked
        calls := p.calls ++ out.calls
        failure := out.failure }

/-- Translation of `main` of `main.py`, restricted to its comparison loop: run the
configured backends on the user's text and language pair. -/
def mainRun (oracle : Oracle) (clock : Nat → Nat)
    (text source_lang target_lang : String) : RunOutcome :=
  runModels oracle clock text source_lang target_lang load_models 0

/-! ## Spec-side tables (from §6 of the spec, for the refinement claim C2) -/

/-- Modelled from the spec's §6 table, column Backend A (seq2seq MT):
the code each registry language should map to, `none` when the table
says unsupported. -/
def specTableA : Language → Option String
  | .spanish => some "spa"
  | .italian => some "ita"
  | .portugees => some "por"
  | .catalan => some "cat"
  | .galician => some "glg"

/-- Modelled from the spec's §6 table, column Backend B (multilingual
MT). -/
def specTableB : Language → Option String
  | .spanish => some "es_XX"
  | .italian => some "it_IT"
  | .portugees => some "pt_XX"
  | .catalan => none
  | .galician => none

/-- Modelled from the spec's §6 table, column Backend C (managed
translate service). -/
def specTableC : Language → Option String
  | .spanish => some "es"
  | .italian => some "it"
  | .portugees => some "pt-PT"
  | .catalan => some "ca"
  | .galician => none

/-! ## Claim theorems -/

/-- C2: the three configured backends' `lang2iso` maps equal the §6
table exactly as functions on Language Registry values, and each map
has no keys beyond those listed (its key list is exactly the listed
languages). -/
theorem code_maps_equal_spec_table :
    (∀ l : Language, HelsinkiItc.mk.lang2iso.lookup l.value = specTableA l) ∧
    (∀ l : Language, FacebookMbart.mk.lang2iso.lookup l.value = specTableB l) ∧
    (∀ l : Language, AwsTranslate.mk.lang2iso.lookup l.value = specTableC l) ∧
    HelsinkiItc.mk.lang2iso.map Prod.fst
      = ["Spanish", "Italian", "Portugees", "Catalan", "Galician"] ∧
    FacebookMbart.mk.lang2iso.map Prod.fst = ["Spanish", "Italian", "Portugees"] ∧
    AwsTranslate.mk.lang2iso.map Prod.fst
      = ["Spanish", "Italian", "Portugees", "Catalan"] := by
  refine ⟨?_, ?_, ?_, rfl, rfl, rfl⟩ <;> intro l <;> cases l <;> rfl

/-- C1: for each configured backend and each registry language pair, if
either language is absent from that backend's `lang2iso` map, `predict`
returns the `"Language not supported"` sentinel and performs no remote
call.  (For `HelsinkiItc` the hypothesis is never satisfiable: its map
contains all five registry values.) -/
theorem unsupported_pair_sentinel_no_network
    (b : Backend) (oracle : Oracle) (text : String) (src tgt : Language)
    (h : b.init.lang2iso.lookup src.value = none ∨
         b.init.lang2iso.lookup tgt.value = none) :
    (b.predict oracle text src.value tgt.value).result
      = Except.ok "Language not supported" ∧
    (b.predict oracle text src.value tgt.value).calls = [] := by
  cases b <;> cases src <;> cases tgt <;>
    first
      | exact ⟨rfl, rfl⟩
      | (rcases h with h | h <;> exact Option.noConfusion h)

/-- Witness for C1: `FacebookMbart` on (Spanish, Catalan) returns the
sentinel with no network call. -/
theorem unsupported_pair_sentinel_no_network_witness :
    (Backend.facebookMbart.predict (fun _ => Except.error ()) "Hola" "Spanish" "Catalan").result
      = Except.ok "Language not supported" ∧
    (Backend.facebookMbart.predict (fun _ => Except.error ()) "Hola" "Spanish" "Catalan").calls
      = [] :=
  unsupported_pair_sentinel_no_network Backend.facebookMbart (fun _ => Except.error ())
    "Hola" Language.spanish Language.catalan (Or.inr rfl)

/-- The single SageMaker call `HelsinkiItc.predict` makes for a text and
a target code. -/
def helsinkiCall (text target_iso : String) : NetCall :=
  NetCall.sagemaker "helsinki-nlp-opus-mt-itc-itc"
    (Json.obj [("inputs", Json.str (">>" ++ target_iso ++ "<< " ++ text))])

/-- Characterization of `HelsinkiItc.predict` on a supported target
language: it invokes the endpoint once with the marker-prefixed body and
feeds the response to the extraction step. -/
theorem helsinki_predict_supported (oracle : Oracle)
    (text source_lang target_lang target_iso : String)
    (h : HelsinkiItc.mk.lang2iso.lookup target_lang = some target_iso) :
    HelsinkiItc.predict HelsinkiItc.mk oracle text source_lang target_lang =
      match oracle (helsinkiCall text target_iso) with
      | Except.error _ => { result := Except.error PredictError.invocationError,
                            calls := [helsinkiCall text target_iso],
                            state := HelsinkiItc.mk }
      | Except.ok prediction => { result := extractTranslationText prediction,
                                  calls := [helsinkiCall text target_iso],
                                  state := HelsinkiItc.mk } := by
  unfold HelsinkiItc.predict
  rw [h]
  rfl

/-- Evaluation of the response-extraction step on a well-shaped array
response. -/
theorem extractTranslationText_eval (fields : List (String × Json))
    (rest : List Json) (s : String)
    (hfield : fields.lookup "translation_text" = some (Json.str s)) :
    extractTranslationText (Json.arr (Json.obj fields :: rest)) = Except.ok s := by
  simp only [extractTranslationText]
  rw [hfield]

/-- C3: when the target language is in `HelsinkiItc`'s map, `predict`
sends exactly one SageMaker request whose body is the single-field JSON
object `inputs` holding the raw text prefixed by the target-code marker,
and whenever the response is a JSON array whose first element carries a
string `translation_text` field, the result is that field's value. -/
theorem helsinki_body_and_extraction
    (oracle : Oracle) (text source_lang target_lang target_iso : String)
    (h : HelsinkiItc.mk.lang2iso.lookup target_lang = some target_iso) :
    (HelsinkiItc.predict HelsinkiItc.mk oracle text source_lang target_lang).calls
      = [NetCall.sagemaker "helsinki-nlp-opus-mt-itc-itc"
          (Json.obj [("inputs", Json.str (">>" ++ target_iso ++ "<< " ++ text))])] ∧
    (∀ (s : String) (fields : List (String × Json)) (rest : List Json),
      oracle (helsinkiCall text target_iso)
          = Except.ok (Json.arr (Json.obj fields :: rest)) →
      fields.lookup "translation_text" = some (Json.str s) →
      (HelsinkiItc.predict HelsinkiItc.mk oracle text source_lang target_lang).result
        = Except.ok s) := by
  rw [helsinki_predict_supported oracle text source_lang target_lang target_iso h]
  constructor
  · cases oracle (helsinkiCall text target_iso) <;> rfl
  · intro s fields rest hresp hfield
    rw [hresp]
    exact extractTranslationText_eval fields rest s hfield

/-- Witness for C3: text `"Hola"`, source Spanish, target Italian gives
body `{"inputs": ">>ita<< Hola"}`, and the response
`[{"translation_text": "Ciao"}]` yields `"Ciao"`. -/
theorem helsinki_body_and_extraction_witness :
    (HelsinkiItc.predict HelsinkiItc.mk
        (fun _ => Except.ok (Json.arr [Json.obj [("translation_text", Json.str "Ciao")]]))
        "Hola" "Spanish" "Italian").calls
      = [NetCall.sagemaker "helsinki-nlp-opus-mt-itc-itc"
          (Json.obj [("inputs", Json.str ">>ita<< Hola")])] ∧
    (HelsinkiItc.predict HelsinkiItc.mk
        (fun _ => Except.ok (Json.arr [Json.obj [("translation_text", Json.str "Ciao")]]))
        "Hola" "Spanish" "Italian").result = Except.ok "Ciao" := by
  have h := helsinki_body_and_extraction
    (fun _ => Except.ok (Json.arr [Json.obj [("translation_text", Json.str "Ciao")]]))
    "Hola" "Spanish" "Italian" "ita" rfl
  exact ⟨h.1, h.2 "Ciao" [("translation_text", Json.str "Ciao")] [] rfl rfl⟩

/-- The single SageMaker call `FacebookMbart.predict` makes for a text
and a pair of codes. -/
def mbartCall (text source_iso target_iso : String) : NetCall :=
  NetCall.sagemaker "facebook-mbart-large-50-many-to-many-mmt"
    (Json.obj [("inputs", Json.arr [Json.str text]),
               ("parameters", Json.obj [("src_lang", Json.str source_iso),
                                        ("tgt_lang", Json.str target_iso)])])

/-- Characterization of `FacebookMbart.predict` on a supported pair. -/
theorem mbart_predict_supported (oracle : Oracle)
    (text source_lang target_lang source_iso target_iso : String)
    (hs : FacebookMbart.mk.lang2iso.lookup source_lang = some source_iso)
    (ht : FacebookMbart.mk.lang2iso.lookup target_lang = some target_iso) :
    FacebookMbart.predict FacebookMbart.mk oracle text source_lang target_lang =
      match oracle (mbartCall text source_iso target_iso) with
      | Except.error _ => { result := Except.error PredictError.invocationError,
                            calls := [mbartCall text source_iso target_iso],
                            state := FacebookMbart.mk }
      | Except.ok prediction => { result := extractTranslationText prediction,
                                  calls := [mbartCall text source_iso target_iso],
                                  state := FacebookMbart.mk } := by
  unfold FacebookMbart.predict
  rw [hs, ht]
  rfl

/-- C4: when both languages are in `FacebookMbart`'s map, `predict`
sends exactly one SageMaker request whose body is
`{"inputs": [text], "parameters": {"src_lang": source_code, "tgt_lang": target_code}}`,
and whenever the response is a JSON array whose first element carries a
string `translation_text` field, the result is that field's value. -/
theorem mbart_body_and_extraction
    (oracle : Oracle) (text source_lang target_lang source_iso target_iso : String)
    (hs : FacebookMbart.mk.lang2iso.lookup source_lang = some source_iso)
    (ht : FacebookMbart.mk.lang2iso.lookup target_lang = some target_iso) :
    (FacebookMbart.predict FacebookMbart.mk oracle text source_lang target_lang).calls
      = [NetCall.sagemaker "facebook-mbart-large-50-many-to-many-mmt"
          (Json.obj [("inputs", Json.arr [Json.str text]),
                     ("parameters", Json.obj [("src_lang", Json.str source_iso),
                                              ("tgt_lang", Json.str target_iso)])])] ∧
    (∀ (s : String) (fields : List (String × Json)) (rest : List Json),
      oracle (mbartCall text source_iso target_iso)
          = Except.ok (Json.arr (Json.obj fields :: rest)) →
      fields.lookup "translation_text" = some (Json.str s) →
      (FacebookMbart.predict FacebookMbart.mk oracle text source_lang target_lang).result
        = Except.ok s) := by
  rw [mbart_predict_supported oracle text source_lang target_lang source_iso target_iso hs ht]
  constructor
  · cases oracle (mbartCall text source_iso target_iso) <;> rfl
  · intro s fields rest hresp hfield
    rw [hresp]
    exact extractTranslationText_eval fields rest s hfield

/-- Witness for C4: text `"Hola"`, source Spanish, target Italian gives
body `{"inputs": ["Hola"], "parameters": {"src_lang": "es_XX",
"tgt_lang": "it_IT"}}`, and the response
`[{"translation_text": "Ciao"}]` yields `"Ciao"`. -/
theorem mbart_body_and_extraction_witness :
    (FacebookMbart.predict FacebookMbart.mk
        (fun _ => Except.ok (Json.arr [Json.obj [("translation_text", Json.str "Ciao")]]))
        "Hola" "Spanish" "Italian").calls
      = [NetCall.sagemaker "facebook-mbart-large-50-many-to-many-mmt"
          (Json.obj [("inputs", Json.arr [Json.str "Hola"]),
                     ("parameters", Json.obj [("src_lang", Json.str "es_XX"),
                                              ("tgt_lang", Json.str "it_IT")])])] ∧
    (FacebookMbart.predict FacebookMbart.mk
        (fun _ => Except.ok (Json.arr [Json.obj [("translation_text", Json.str "Ciao")]]))
        "Hola" "Spanish" "Italian").result = Except.ok "Ciao" := by
  have h := mbart_body_and_extraction
    (fun _ => Except.ok (Json.arr [Json.obj [("translation_text", Json.str "Ciao")]]))
    "Hola" "Spanish" "Italian" "es_XX" "it_IT" rfl rfl
  exact ⟨h.1, h.2 "Ciao" [("translation_text", Json.str "Ciao")] [] rfl rfl⟩

/-- Characterization of `AwsTranslate.predict` on a supported pair. -/
theorem aws_predict_supported (oracle : Oracle)
    (text source_lang target_lang source_iso target_iso : String)
    (hs : AwsTranslate.mk.lang2iso.lookup source_lang = some source_iso)
    (ht : AwsTranslate.mk.lang2iso.lookup target_lang = some target_iso) :
    AwsTranslate.predict AwsTranslate.mk oracle text source_lang target_lang =
      match oracle (NetCall.awsTranslate text source_iso target_iso) with
      | Except.error _ => { result := Except.error PredictError.invocationError,
                            calls := [NetCall.awsTranslate text source_iso target_iso],
                            state := AwsTranslate.mk }
      | Except.ok response => { result := extractTranslatedText response,
                                calls := [NetCall.awsTranslate text source_iso target_iso],
                                state := AwsTranslate.mk } := by
  unfold AwsTranslate.predict
  rw [hs, ht]

/-- Evaluation of the managed-translate response extraction on a
well-shaped object response. -/
theorem extractTranslatedText_eval (fields : List (String × Json)) (s : String)
    (hfield : fields.lookup "TranslatedText" = some (Json.str s)) :
    extractTranslatedText (Json.obj fields) = Except.ok s := by
  simp only [extractTranslatedText]
  rw [hfield]

/-- C5: when both languages are in `AwsTranslate`'s map, `predict` calls
the managed translate client exactly once with `Text = text`,
`SourceLanguageCode = source_code`, `TargetLanguageCode = target_code`,
and whenever the response object carries a string `TranslatedText`
field, the result is that field's value. -/
theorem aws_request_and_extraction
    (oracle : Oracle) (text source_lang target_lang source_iso target_iso : String)
    (hs : AwsTranslate.mk.lang2iso.lookup source_lang = some source_iso)
    (ht : AwsTranslate.mk.lang2iso.lookup target_lang = some target_iso) :
    (AwsTranslate.predict AwsTranslate.mk oracle text source_lang target_lang).calls
      = [NetCall.awsTranslate text source_iso target_iso] ∧
    (∀ (s : String) (fields : List (String × Json)),
      oracle (NetCall.awsTranslate text source_iso target_iso)
          = Except.ok (Json.obj fields) →
      fields.lookup "TranslatedText" = some (Json.str s) →
      (AwsTranslate.predict AwsTranslate.mk oracle text source_lang target_lang).result
        = Except.ok s) := by
  rw [aws_predict_supported oracle text source_lang target_lang source_iso target_iso hs ht]
  constructor
  · cases oracle (NetCall.awsTranslate text source_iso target_iso) <;> rfl
  · intro s fields hresp hfield
    rw [hresp]
    exact extractTranslatedText_eval fields s hfield

/-- Witness for C5: text `"Hola"`, source Spanish, target Portuguese
gives the request with codes `"es"` and `"pt-PT"`, and the response
`{"TranslatedText": "Olá"}` yields `"Olá"`. -/
theorem aws_request_and_extraction_witness :
    (AwsTranslate.predict AwsTranslate.mk
        (fun _ => Except.ok (Json.obj [("TranslatedText", Json.str "Olá")]))
        "Hola" "Spanish" "Portugees").calls
      = [NetCall.awsTranslate "Hola" "es" "pt-PT"] ∧
    (AwsTranslate.predict AwsTranslate.mk
        (fun _ => Except.ok (Json.obj [("TranslatedText", Json.str "Olá")]))
        "Hola" "Spanish" "Portugees").result = Except.ok "Olá" := by
  have h := aws_request_and_extraction
    (fun _ => Except.ok (Json.obj [("TranslatedText", Json.str "Olá")]))
    "Hola" "Spanish" "Portugees" "es" "pt-PT" rfl rfl
  exact ⟨h.1, h.2 "Olá" [("TranslatedText", Json.str "Olá")] rfl rfl⟩

/-- C8: no `predict` call mutates its instance: for every starting
instance state (endpoint name and `lang2iso` map together) and every
argument triple, the state after the call — sentinel, error and success
paths alike — equals the state before it. -/
theorem predict_preserves_instance_state
    (self : ModelState) (oracle : Oracle) (text source_lang target_lang : String) :
    (HelsinkiItc.predict self oracle text source_lang target_lang).state = self ∧
    (FacebookMbart.predict self oracle text source_lang target_lang).state = self ∧
    (AwsTranslate.predict self oracle text source_lang target_lang).state = self := by
  refine ⟨?_, ?_, ?_⟩
  · unfold HelsinkiItc.predict
    cases hl : List.lookup target_lang self.lang2iso with
    | none => rfl
    | some ti =>
      cases ho : oracle (NetCall.sagemaker self.endpoint_name
          (Json.obj [("inputs", Json.str (">>" ++ ti ++ "<< " ++ text))])) <;>
        simp [ho]
  · unfold FacebookMbart.predict
    cases hs : List.lookup source_lang self.lang2iso with
    | none => rfl
    | some si =>
      cases hl : List.lookup target_lang self.lang2iso with
      | none => rfl
      | some ti =>
        cases ho : oracle (NetCall.sagemaker self.endpoint_name
            (Json.obj [("inputs", Json.arr [Json.str text]),
                       ("parameters", Json.obj [("src_lang", Json.str si),
                                                ("tgt_lang", Json.str ti)])])) <;>
          simp [ho]
  · unfold AwsTranslate.predict
    cases hs : List.lookup source_lang self.lang2iso with
    | none => rfl
    | some si =>
      cases hl : List.lookup target_lang self.lang2iso with
      | none => rfl
      | some ti =>
        cases ho : oracle (NetCall.awsTranslate text si ti) <;> simp [ho]

/-- C9: `HelsinkiItc.predict` has no unsupported-pair guard: a target
language outside its map raises an uncaught `KeyError` (whatever the
source language), and every successfully returned string — the
`"Language not supported"` sentinel included — is verbatim the
`translation_text` field of the remote response's first element, so the
method itself never produces the sentinel. -/
theorem helsinki_no_guard_raises_keyerror
    (oracle : Oracle) (text source_lang target_lang : String) :
    (HelsinkiItc.mk.lang2iso.lookup target_lang = none →
      (HelsinkiItc.predict HelsinkiItc.mk oracle text source_lang target_lang).result
        = Except.error (PredictError.keyError target_lang)) ∧
    (∀ r : String,
      (HelsinkiItc.predict HelsinkiItc.mk oracle text source_lang target_lang).result
          = Except.ok r →
      ∃ (target_iso : String) (fields : List (String × Json)) (rest : List Json),
        HelsinkiItc.mk.lang2iso.lookup target_lang = some target_iso ∧
        oracle (helsinkiCall text target_iso)
          = Except.ok (Json.arr (Json.obj fields :: rest)) ∧
        fields.lookup "translation_text" = some (Json.str r)) := by
  constructor
  · intro h
    unfold HelsinkiItc.predict
    rw [h]
  · intro r hr
    cases hl : HelsinkiItc.mk.lang2iso.lookup target_lang with
    | none =>
      unfold HelsinkiItc.predict at hr
      rw [hl] at hr
      exact Except.noConfusion hr
    | some target_iso =>
      rw [helsinki_predict_supported oracle text source_lang target_lang target_iso hl] at hr
      cases hoc : oracle (helsinkiCall text target_iso) with
      | error u => rw [hoc] at hr; exact Except.noConfusion hr
      | ok j =>
        rw [hoc] at hr
        have hext : extractTranslationText j = Except.ok r := hr
        cases j with
        | str s => exact Except.noConfusion hext
        | obj fields => exact Except.noConfusion hext
        | arr l =>
          cases l with
          | nil => exact Except.noConfusion hext
          | cons hd tl =>
            cases hd with
            | str s => exact Except.noConfusion hext
            | arr l2 => exact Except.noConfusion hext
            | obj fields =>
              refine ⟨target_iso, fields, tl, rfl, hoc, ?_⟩
              simp only [extractTranslationText] at hext
              cases hf : fields.lookup "translation_text" with
              | none => rw [hf] at hext; exact Except.noConfusion hext
              | some v =>
                rw [hf] at hext
                cases v with
                | str s2 =>
                  cases hext
                  rfl
                | arr l3 => exact Except.noConfusion hext
                | obj f2 => exact Except.noConfusion hext

/-- Witness for C9: target `"French"` (outside the registry) raises
`KeyError("French")`. -/
theorem helsinki_no_guard_raises_keyerror_witness :
    (HelsinkiItc.predict HelsinkiItc.mk (fun _ => Except.error ())
        "Hola" "Spanish" "French").result
      = Except.error (PredictError.keyError "French") :=
  (helsinki_no_guard_raises_keyerror (fun _ => Except.error ())
    "Hola" "Spanish" "French").1 rfl

/-- C10: `FacebookLocalMbart` is not among the configured backends, and
on a pair supported by its map its `predict` hands the underlying
translator the source ISO code but the raw target language name — the
`target_iso` value is dropped, so the result is independent of it. -/
theorem facebook_local_passes_target_name
    (translator : String → String → String → String)
    (text source_lang target_lang source_iso target_iso : String)
    (hs : FacebookLocalMbart.mk.lang2iso.lookup source_lang = some source_iso)
    (ht : FacebookLocalMbart.mk.lang2iso.lookup target_lang = some target_iso) :
    FacebookLocalMbart.predict FacebookLocalMbart.mk translator text source_lang target_lang
      = translator text source_iso target_lang ∧
    (load_models.map Backend.endpointName).contains
      FacebookLocalMbart.mk.endpoint_name = false := by
  constructor
  · unfold FacebookLocalMbart.predict
    rw [hs, ht]
  · rfl

/-- Witness for C10: a translator that echoes its arguments shows the
target argument is the name `"Italian"`, not the mapped code `"it"`. -/
theorem facebook_local_passes_target_name_witness :
    FacebookLocalMbart.predict FacebookLocalMbart.mk
        (fun a b c => b ++ ":" ++ c ++ ":" ++ a) "Hola" "Spanish" "Italian"
      = "es:Italian:Hola" ∧
    (load_models.map Backend.endpointName).contains
      FacebookLocalMbart.mk.endpoint_name = false :=
  facebook_local_passes_target_name (fun a b c => b ++ ":" ++ c ++ ":" ++ a)
    "Hola" "Spanish" "Italian" "es" "it" rfl rfl

/-- C6: the driver's loop does not catch a `predict` exception: if the
backends before position `i` succeed and the backend at position `i`
raises `e`, the run aborts with `e`, exactly the backends up to and
including position `i` are invoked, and only the `i` earlier backends
produce a `(name, translation, elapsed)` entry. -/
theorem backend_failure_aborts_run
    (oracle : Oracle) (clock : Nat → Nat) (text source_lang target_lang : String)
    (models : List Backend) (k i : Nat) (hi : i < models.length) (e : PredictError)
    (hok : ∀ j (hj : j < i),
      ∃ r, ((models.get ⟨j, lt_trans hj hi⟩).predict oracle text source_lang target_lang).result
        = Except.ok r)
    (herr : ((models.get ⟨i, hi⟩).predict oracle text source_lang target_lang).result
      = Except.error e) :
    (runModels oracle clock text source_lang target_lang models k).failure = some e ∧
    (runModels oracle clock text source_lang target_lang models k).invoked
      = models.take (i + 1) ∧
    (runModels oracle clock text source_lang target_lang models k).entries.length = i := by
  induction models generalizing k i with
  | nil => exact absurd hi (Nat.not_lt_zero i)
  | cons b rest ih =>
    cases i with
    | zero =>
      have hb : (b.predict oracle text source_lang target_lang).result = Except.error e := herr
      simp [runModels, hb]
    | succ i' =>
      obtain ⟨r, hr⟩ := hok 0 (Nat.succ_pos i')
      have hb : (b.predict oracle text source_lang target_lang).result = Except.ok r := hr
      have herr' : ((rest.get ⟨i', Nat.lt_of_succ_lt_succ hi⟩).predict
          oracle text source_lang target_lang).result = Except.error e := herr
      have hok' : ∀ j (hj : j < i'),
          ∃ s, ((rest.get ⟨j, lt_trans hj (Nat.lt_of_succ_lt_succ hi)⟩).predict
            oracle text source_lang target_lang).result = Except.ok s :=
        fun j hj => hok (j + 1) (Nat.succ_lt_succ hj)
      have hrec := ih (k + 2) i' (Nat.lt_of_succ_lt_succ hi) hok' herr'
      simp [runModels, hb, hrec.1, hrec.2.1, hrec.2.2]

/-- The remote world used by the C6 witness: the Helsinki endpoint
answers, every other call fails. -/
def failAfterHelsinkiOracle : Oracle
  | NetCall.sagemaker "helsinki-nlp-opus-mt-itc-itc" _ =>
    Except.ok (Json.arr [Json.obj [("translation_text", Json.str "Ciao")]])
  | _ => Except.error ()

/-- Witness for C6: with the second backend's remote call failing, the
run aborts after invoking only the first two backends and displays only
the first backend's entry. -/
theorem backend_failure_aborts_run_witness :
    (runModels failAfterHelsinkiOracle (fun k => k) "Hola" "Spanish" "Italian"
        load_models 0).failure = some PredictError.invocationError ∧
    (runModels failAfterHelsinkiOracle (fun k => k) "Hola" "Spanish" "Italian"
        load_models 0).invoked = [Backend.helsinkiItc, Backend.facebookMbart] ∧
    (runModels failAfterHelsinkiOracle (fun k => k) "Hola" "Spanish" "Italian"
        load_models 0).entries.length = 1 :=
  backend_failure_aborts_run failAfterHelsinkiOracle (fun k => k) "Hola" "Spanish" "Italian"
    load_models 0 1 (by decide) PredictError.invocationError
    (fun j hj =>
      match j, hj with
      | 0, _ => ⟨"Ciao", rfl⟩)
    rfl

/-- C7: when no backend raises, the driver invokes the configured
backends exactly once each, sequentially, in configuration order —
`HelsinkiItc`, then `FacebookMbart`, then `AwsTranslate` — and the
output entries carry their names, results and elapsed times in that
same order. -/
theorem driver_preserves_configured_order
    (oracle : Oracle) (clock : Nat → Nat) (text source_lang target_lang : String)
    (r1 r2 r3 : String)
    (h1 : (Backend.helsinkiItc.predict oracle text source_lang target_lang).result
      = Except.ok r1)
    (h2 : (Backend.facebookMbart.predict oracle text source_lang target_lang).result
      = Except.ok r2)
    (h3 : (Backend.awsTranslate.predict oracle text source_lang target_lang).result
      = Except.ok r3) :
    (mainRun oracle clock text source_lang target_lang).invoked = load_models ∧
    (mainRun oracle clock text source_lang target_lang).entries
      = [{ name := "helsinki-nlp-opus-mt-itc-itc", translated := r1,
           elapsed := clock 1 - clock 0 },
         { name := "facebook-mbart-large-50-many-to-many-mmt", translated := r2,
           elapsed := clock 3 - clock 2 },
         { name := "aws-translate", translated := r3,
           elapsed := clock 5 - clock 4 }] ∧
    (mainRun oracle clock text source_lang target_lang).failure = none := by
  unfold mainRun load_models
  simp [runModels, h1, h2, h3, Backend.endpointName, Backend.init,
    HelsinkiItc.mk, FacebookMbart.mk, AwsTranslate.mk]

/-- The remote world used by the C7 witness: every SageMaker call
answers `"Ciao"`, the managed translate call answers `"Olá"`. -/
def allOkOracle : Oracle
  | NetCall.sagemaker _ _ =>
    Except.ok (Json.arr [Json.obj [("translation_text", Json.str "Ciao")]])
  | NetCall.awsTranslate _ _ _ =>
    Except.ok (Json.obj [("TranslatedText", Json.str "Olá")])

/-- Witness for C7: with every remote call succeeding and the unit
clock, the run displays the three entries in configured order and
aborts nowhere. -/
theorem driver_preserves_configured_order_witness :
    (mainRun allOkOracle (fun k => k) "Hola" "Spanish" "Italian").invoked = load_models ∧
    (mainRun allOkOracle (fun k => k) "Hola" "Spanish" "Italian").entries
      = [{ name := "helsinki-nlp-opus-mt-itc-itc", translated := "Ciao", elapsed := 1 },
         { name := "facebook-mbart-large-50-many-to-many-mmt", translated := "Ciao",
           elapsed := 1 },
         { name := "aws-translate", translated := "Olá", elapsed := 1 }] ∧
    (mainRun allOkOracle (fun k => k) "Hola" "Spanish" "Italian").failure = none :=
  driver_preserves_configured_order allOkOracle (fun k => k) "Hola" "Spanish" "Italian"
    "Ciao" "Ciao" "Olá" rfl rfl rfl

end DataDay
